import Mathlib

/-!
Verification of the Visma Connect OAuth 2.0 + PKCE authentication core of
`template-mobile-app`, shallowly embedded in Lean.

The embedding follows the TypeScript source:
* `src/services/auth/visma-connect.ts` — PKCE generation, callback
  validation, token-endpoint response handling;
* `src/services/auth/token-manager.ts` — token storage, expiry checks,
  single-flight refresh coordination;
* the `useVismaConnect` hook — pending-auth-state lifecycle, `login`,
  `logout`, deep-link callback handling;
* `src/core/auth.config.ts` and `src/utils/secure-storage.ts`.

JavaScript-specific semantics that matter to the source (truthiness of
strings, `??` versus `||`, `parseInt`, `URLSearchParams.get` returning
`null` for an absent parameter) are modelled explicitly.  Numbers that
the source manipulates (`Date.now()`, `expires_in`, expiry timestamps)
are modelled as `Int`.  Network calls and the platform crypto/browser
APIs are external collaborators: their results enter the model as
explicit parameters (a provider reply, the random bytes, the SHA-256
digest function).
-/

namespace VismaConnect

/-- JavaScript truthiness of a nullable string: `null`/`undefined` and the
empty string are falsy. -/
def jsTruthy : Option String → Bool
  | none => false
  | some s => s ≠ ""

/-- JavaScript `x || undefined` on a nullable string: a falsy value (absent
or empty) becomes `undefined`. -/
def jsFalsyToNone : Option String → Option String
  | none => none
  | some s => if s = "" then none else some s

/-- JavaScript `a || b` where `a` is a nullable string and `b` a string:
`b` is used when `a` is absent or empty. -/
def jsOrElse : Option String → String → String
  | none, b => b
  | some s, b => if s = "" then b else s

/-- JavaScript `parseInt(s, 10)`: skip leading whitespace, accept one
optional sign, read the longest run of decimal digits; `NaN` (here `none`)
when no digit is read. -/
def parseIntJS (s : String) : Option Int :=
  let cs := s.data.dropWhile (fun c => c.isWhitespace)
  let signAndRest : Int × List Char :=
    match cs with
    | '-' :: t => (-1, t)
    | '+' :: t => (1, t)
    | t => (1, t)
  let ds := signAndRest.2.takeWhile (fun c => c.isDigit)
  if ds.isEmpty then none
  else some (signAndRest.1 * (ds.foldl (fun acc c => acc * 10 + (c.toNat - '0'.toNat)) 0 : Nat))

/-- `VismaConnectError` from `visma-connect.ts`: an error code plus an
optional description.  The spec errors `ProviderError`, `MalformedCallbackError`,
`StateMismatchError`, `InvalidResponseError` and `ConfigurationError` are
all realised in the source as values of this class with the codes
`error`/`missing_code`/`state_mismatch`/`invalid_response`/
`configuration_error`. -/
structure VCError where
  error : String
  errorDescription : Option String
deriving DecidableEq, Repr

/-- The query parameters the source reads from the callback URL via
`url.searchParams.get`; `none` models an absent parameter (`null`). -/
structure CallbackParams where
  code : Option String
  state : Option String
  error : Option String
  error_description : Option String
deriving DecidableEq, Repr

/-- Outcome of `handleCallback` in `visma-connect.ts`: either a thrown
`VismaConnectError`, or the code exchange performed with the given
arguments (line 286: `return exchangeCodeForTokens(code, codeVerifier,
redirectUri)`). -/
inductive CallbackOutcome where
  | failure (e : VCError)
  | exchange (code codeVerifier redirectUri : String)
deriving DecidableEq, Repr

/-- `handleCallback` of `visma-connect.ts` lines 262-287, up to the point
where the token exchange is issued.  The checks run in source order:
`error` (JS-truthy), then missing `code` (JS-falsy), then strict
`state !== expectedState`. -/
def handleCallback (params : CallbackParams) (expectedState codeVerifier redirectUri : String) :
    CallbackOutcome :=
  if jsTruthy params.error then
    .failure ⟨params.error.getD "", jsFalsyToNone params.error_description⟩
  else if ¬ jsTruthy params.code then
    .failure ⟨"missing_code", some "Authorization code not found in callback"⟩
  else if params.state ≠ some expectedState then
    .failure ⟨"state_mismatch", some "State parameter does not match"⟩
  else
    .exchange (params.code.getD "") codeVerifier redirectUri

/-- The `expires_in` field of a provider token response: absent, a JSON
number (the `typeof` check in the source), or present but not a
number. -/
inductive ExpiresInField where
  | absent
  | num (n : Int)
  | nonNum
deriving DecidableEq, Repr

/-- Body of an HTTP-ok token-endpoint response, as read by
`exchangeCodeForTokens` / `refreshAccessToken`. -/
structure TokenResponseBody where
  access_token : Option String
  refresh_token : Option String
  token_type : Option String
  expires_in : ExpiresInField
  id_token : Option String
  scope : Option String
deriving DecidableEq, Repr

/-- `TokenSet` from `services/auth/types.ts` as constructed by the token
endpoints. -/
structure TokenSet where
  accessToken : String
  refreshToken : String
  tokenType : String
  expiresIn : Int
  expiresAt : Int
  idToken : Option String
  scope : Option String
deriving DecidableEq, Repr

/-- The `expires_in` defaulting at lines 127 and 175: the numeric value
when the field is a JSON number, otherwise 3600. -/
def defaultedExpiresIn : ExpiresInField → Int
  | .num n => n
  | _ => 3600

/-- Success-path (HTTP-ok) body handling of `exchangeCodeForTokens`
(`visma-connect.ts` lines 120-138).  `now` is `Date.now()` at receipt.
The non-ok HTTP branch (lines 112-118) throws before reaching this code
and is modelled at the call sites as a `ProviderReply.httpError`. -/
def exchangeCodeForTokensOk (now : Int) (data : TokenResponseBody) :
    Except VCError TokenSet :=
  match data.access_token with
  | none => .error ⟨"invalid_response", some "Token response missing access_token"⟩
  | some a =>
    if a = "" then .error ⟨"invalid_response", some "Token response missing access_token"⟩
    else
      let expiresIn := defaultedExpiresIn data.expires_in
      .ok { accessToken := a
            refreshToken := data.refresh_token.getD ""
            tokenType := data.token_type.getD "Bearer"
            expiresIn := expiresIn
            expiresAt := now + expiresIn * 1000
            idToken := data.id_token
            scope := data.scope }

/-- Success-path (HTTP-ok) body handling of `refreshAccessToken`
(`visma-connect.ts` lines 168-186).  Differs from the code exchange only
in `refreshToken := data.refresh_token || refreshToken` (line 179). -/
def refreshAccessTokenOk (now : Int) (refreshToken : String) (data : TokenResponseBody) :
    Except VCError TokenSet :=
  match data.access_token with
  | none => .error ⟨"invalid_response", some "Token response missing access_token"⟩
  | some a =>
    if a = "" then .error ⟨"invalid_response", some "Token response missing access_token"⟩
    else
      let expiresIn := defaultedExpiresIn data.expires_in
      .ok { accessToken := a
            refreshToken := jsOrElse data.refresh_token refreshToken
            tokenType := data.token_type.getD "Bearer"
            expiresIn := expiresIn
            expiresAt := now + expiresIn * 1000
            idToken := data.id_token
            scope := data.scope }

/-- `isTokenExpired` (`visma-connect.ts` lines 210-212), with `Date.now()`
passed explicitly. -/
def isTokenExpired (now expiresAt bufferSeconds : Int) : Bool :=
  now ≥ expiresAt - bufferSeconds * 1000

end VismaConnect

namespace VismaConnect

/-- The secure-storage slots the auth core uses (`secure-storage.ts`,
`STORAGE_KEYS` in `core/constants.ts`): `auth_token`, `refresh_token`,
`token_expiry`, `id_token`, and `auth_state`.  The pending auth state is
persisted as `JSON.stringify` of a `PendingAuthState` record; the JSON
round-trip is abstracted as the identity, so the slot holds the record
itself (the corrupted-JSON branch of `loadPendingAuthState` is not
exercised by any claim). -/
structure PKCEParams where
  codeVerifier : String
  codeChallenge : String
  codeChallengeMethod : String
deriving DecidableEq, Repr

/-- `PendingAuthState` of the `useVismaConnect` hook (lines 49-54). -/
structure PendingAuthState where
  state : String
  pkce : PKCEParams
  redirectUri : String
  timestamp : Int
deriving DecidableEq, Repr

structure SecureStore where
  auth_token : Option String
  refresh_token : Option String
  token_expiry : Option String
  id_token : Option String
  auth_state : Option PendingAuthState
deriving DecidableEq, Repr

/-- The record `getTokens` (`token-manager.ts` lines 69-89) returns when an
access token is stored. -/
structure StoredTokens where
  accessToken : String
  refreshToken : Option String
  expiresAt : Option Int
  idToken : Option String
deriving DecidableEq, Repr

/-- `getTokens` (`token-manager.ts` lines 69-89): `null` when the stored
access token is absent or empty; `expiresAt` is `undefined` when the
expiry slot is falsy or `parseInt` yields `NaN`. -/
def getTokens (s : SecureStore) : Option StoredTokens :=
  match s.auth_token with
  | none => none
  | some a =>
    if a = "" then none
    else
      some { accessToken := a
             refreshToken := jsFalsyToNone s.refresh_token
             expiresAt :=
               match s.token_expiry with
               | none => none
               | some es => if es = "" then none else parseIntJS es
             idToken := jsFalsyToNone s.id_token }

/-- `setTokens` (`token-manager.ts` lines 55-64): writes access token,
refresh token and expiry; writes the id token only when it is truthy. -/
def setTokens (s : SecureStore) (ts : TokenSet) : SecureStore :=
  { s with
    auth_token := some ts.accessToken
    refresh_token := some ts.refreshToken
    token_expiry := some (toString ts.expiresAt)
    id_token :=
      match ts.idToken with
      | some i => if i = "" then s.id_token else some i
      | none => s.id_token }

/-- `clearTokens` (`token-manager.ts` lines 186-192): `secureStorage.clearAll`
(deletes `auth_token` and `refresh_token`, `secure-storage.ts` lines 80-85)
plus deletion of `token_expiry` and `id_token`.  The `auth_state` slot is
not touched. -/
def clearTokens (s : SecureStore) : SecureStore :=
  { s with auth_token := none, refresh_token := none, token_expiry := none, id_token := none }

/-- Failures `refreshTokens` can propagate: the module-level
`TokenRefreshError` or a `VismaConnectError` from the token endpoint. -/
inductive AuthFailure where
  | tokenRefreshError (msg : String)
  | vismaConnectError (e : VCError)
deriving DecidableEq, Repr

/-- What the token endpoint produced for one refresh request: an HTTP-ok
body, or the `VismaConnectError` thrown by the non-ok branch
(`visma-connect.ts` lines 160-166). -/
inductive ProviderReply where
  | ok (body : TokenResponseBody)
  | httpError (e : VCError)
deriving DecidableEq, Repr

/-- Observable effects of one `refreshTokens` run (`token-manager.ts`
lines 126-156): the resulting storage, whether a refresh request was sent
to the provider, whether the `onTokenRefreshFailed` callback fired, and
the settled result. -/
structure RefreshRun where
  store : SecureStore
  providerCalled : Bool
  failureCallbackInvoked : Bool
  result : Except AuthFailure TokenSet
deriving Repr

/-- Body of `refreshTokens` (`token-manager.ts` lines 126-156) for one
executed refresh: read the stored refresh token (throw `TokenRefreshError`
if falsy), call `refreshAccessToken`, persist via `setTokens` on success;
any failure invokes `onTokenRefreshFailed` and is rethrown, leaving
storage untouched. -/
def refreshTokensRun (now : Int) (s : SecureStore) (reply : ProviderReply) : RefreshRun :=
  match s.refresh_token with
  | none => ⟨s, false, true, .error (.tokenRefreshError "No refresh token available")⟩
  | some rt =>
    if rt = "" then ⟨s, false, true, .error (.tokenRefreshError "No refresh token available")⟩
    else
      match reply with
      | .httpError e => ⟨s, true, true, .error (.vismaConnectError e)⟩
      | .ok body =>
        match refreshAccessTokenOk now rt body with
        | .error e => ⟨s, true, true, .error (.vismaConnectError e)⟩
        | .ok ts => ⟨setTokens s ts, true, false, .ok ts⟩

/-- Observable effects of one `getValidAccessToken` call. -/
structure GetTokenRun where
  store : SecureStore
  providerCalled : Bool
  failureCallbackInvoked : Bool
  result : Option String
deriving Repr

/-- `getValidAccessToken` (`token-manager.ts` lines 162-181): read stored
tokens; `null` when none; refresh when `tokens.expiresAt` is truthy and
`isTokenExpired` holds, returning `null` when the refresh fails; otherwise
return the stored access token. -/
def getValidAccessTokenRun (now bufferSeconds : Int) (s : SecureStore) (reply : ProviderReply) :
    GetTokenRun :=
  match getTokens s with
  | none => ⟨s, false, false, none⟩
  | some t =>
    let needsRefresh :=
      match t.expiresAt with
      | some e => e ≠ 0 && isTokenExpired now e bufferSeconds
      | none => false
    if needsRefresh then
      let r := refreshTokensRun now s reply
      match r.result with
      | .ok ts => ⟨r.store, r.providerCalled, r.failureCallbackInvoked, some ts.accessToken⟩
      | .error _ => ⟨r.store, r.providerCalled, r.failureCallbackInvoked, none⟩
    else ⟨s, false, false, some t.accessToken⟩

/-- `AUTH_STATE_MAX_AGE` of the hook (line 75): 5 minutes in ms. -/
def AUTH_STATE_MAX_AGE : Int := 5 * 60 * 1000

/-- `loadPendingAuthState` (hook lines 101-119): absent slot yields `null`;
a stored state older than the TTL is deleted and yields `null`. -/
def loadPendingAuthState (now : Int) (s : SecureStore) :
    SecureStore × Option PendingAuthState :=
  match s.auth_state with
  | none => (s, none)
  | some st =>
    if now - st.timestamp > AUTH_STATE_MAX_AGE then ({ s with auth_state := none }, none)
    else (s, some st)

/-- The user-facing message the hook derives from a `VismaConnectError`:
`err.errorDescription || err.error` (hook lines 206-208). -/
def hookErrorMessage (e : VCError) : String :=
  jsOrElse e.errorDescription e.error

/-- Observable effects of one run of the hook function `handleCallback`
(lines 171-223).  `exchangeAttempted` records whether a code-for-token
exchange request was issued; `authCompleted` records reaching
`completeAuth` (the backend session exchange, an external collaborator
outside this core). -/
structure HookCallbackRun where
  store : SecureStore
  errorMsg : Option String
  exchangeAttempted : Bool
  authCompleted : Bool
deriving Repr

/-- The hook `handleCallback` (lines 171-223): load and validate the
pending auth state (throwing `invalid_state` with a retry message when it
is absent or expired), validate the callback URL via
`vismaConnect.handleCallback`, perform the code exchange, clear the
pending state and store the tokens on success.  The duplicate-delivery
guard (`isHandlingCallback`) and the backend `completeAuth` call are not
modelled beyond the `authCompleted` flag. -/
def hookHandleCallbackRun (now : Int) (s : SecureStore) (params : CallbackParams)
    (reply : ProviderReply) : HookCallbackRun :=
  let loaded := loadPendingAuthState now s
  match loaded.2 with
  | none =>
    ⟨loaded.1, some "No pending authentication found. Please try logging in again.", false, false⟩
  | some p =>
    match handleCallback params p.state p.pkce.codeVerifier p.redirectUri with
    | .failure e => ⟨loaded.1, some (hookErrorMessage e), false, false⟩
    | .exchange _ _ _ =>
      match reply with
      | .httpError e => ⟨loaded.1, some (hookErrorMessage e), true, false⟩
      | .ok body =>
        match exchangeCodeForTokensOk now body with
        | .error e => ⟨loaded.1, some (hookErrorMessage e), true, false⟩
        | .ok ts => ⟨setTokens { loaded.1 with auth_state := none } ts, none, true, true⟩

/-- The session state of the auth store (`store/auth.store.ts`), with the user
abstracted to an identifier. -/
structure AuthStoreState where
  user : Option String
  isAuthenticated : Bool
  isLoading : Bool
  error : Option String
  tokenExpiresAt : Option Int
deriving DecidableEq, Repr

/-- `useAuthStore` `logout` action (`auth.store.ts` lines 95-110): clears
`auth_token`, `refresh_token`, `token_expiry` and `id_token` from secure
storage and resets the session state. -/
def authStoreLogout (s : SecureStore) (_st : AuthStoreState) :
    SecureStore × AuthStoreState :=
  ({ s with auth_token := none, refresh_token := none, token_expiry := none, id_token := none },
   { user := none, isAuthenticated := false, isLoading := false, error := none,
     tokenExpiresAt := none })

/-- Observable effects of the hook `logout` (lines 325-362). -/
structure LogoutRun where
  store : SecureStore
  storeState : AuthStoreState
  backendCalled : Bool
  errorMsg : Option String
deriving Repr

/-- The hook `logout` (lines 325-362): best-effort backend
`authApi.logout` whose failure is swallowed by the inner `try/catch`, then
`tokenManager.clearTokens`, then `authStore.logout`, then `onUserLogout`
(analytics cleanup, no storage effect).  `backendFails` says whether the
backend call rejects; either way the local cleanup proceeds and no error
is surfaced for the backend failure. -/
def logoutRun (s : SecureStore) (st : AuthStoreState) (backendFails : Bool) : LogoutRun :=
  let s1 := clearTokens s
  let cleared := authStoreLogout s1 st
  -- the inner catch at hook lines 331-338 discards the backend failure, so
  -- `backendFails` has no effect on anything below it
  { store := cleared.1
    storeState := cleared.2
    backendCalled := true
    errorMsg := none }

/-- OAuth scopes from `auth.config.ts` (`DEFAULT_SCOPES`, lines 45-50). -/
def DEFAULT_SCOPES : List String := ["openid", "profile", "email", "offline_access"]

/-- The configurable part of `authConfig` (`auth.config.ts` lines 74-109). -/
structure AuthConfigModel where
  clientId : String
  scheme : String
  scopes : List String
deriving DecidableEq, Repr

/-- Default `clientId` of `authConfig` when `VISMA_CONNECT_CLIENT_ID` is
unset (`auth.config.ts` line 79): the placeholder `"your-client-id-here"`. -/
def authConfigDefaultClientId : String := "your-client-id-here"

/-- `validateAuthConfig` (`auth.config.ts` lines 123-146): collects
configuration errors; valid iff none. -/
def validateAuthConfig (c : AuthConfigModel) : Bool × List String :=
  let e1 :=
    if c.clientId = "" ∨ c.clientId = "your-client-id-here" then
      ["VISMA_CONNECT_CLIENT_ID is not configured"]
    else []
  let e2 := if c.scheme = "" then ["APP_SCHEME is not configured"] else []
  let e3 := if c.scopes.isEmpty then ["No OAuth scopes configured"] else []
  let e4 := if c.scopes.contains "openid" then [] else ["OpenID scope is required for OIDC"]
  let errors := e1 ++ e2 ++ e3 ++ e4
  (errors.isEmpty, errors)

/-- Observable effects of one run of the hook `login` (lines 254-320) up
to the external-browser handoff. -/
structure LoginRun where
  store : SecureStore
  errorMsg : Option String
  pkceGenerated : Bool
  pendingSaved : Bool
  browserOpened : Bool
deriving Repr

/-- The hook `login` (lines 254-320) up to the browser handoff.  The
guard at line 262 throws `configuration_error` when `authConfig.clientId`
is falsy or equals the literal string `YOUR_VISMA_CLIENT_ID`;
the catch branch clears the pending auth state.  Otherwise
`initiateLogin` generates PKCE parameters and a state value (abstracted
as the `pkce`/`stateValue`/`redirectUri` parameters), the pending state is
persisted with `timestamp := Date.now()`, and the auth session browser is
opened. -/
def loginRun (clientId : String) (now : Int) (s : SecureStore)
    (pkce : PKCEParams) (stateValue redirectUri : String) : LoginRun :=
  if clientId = "" ∨ clientId = "YOUR_VISMA_CLIENT_ID" then
    { store := { s with auth_state := none }
      errorMsg := some "Visma Connect client ID not configured. See docs/VISMA_CONNECT.md"
      pkceGenerated := false
      pendingSaved := false
      browserOpened := false }
  else
    { store := { s with auth_state := some ⟨stateValue, pkce, redirectUri, now⟩ }
      errorMsg := none
      pkceGenerated := true
      pendingSaved := true
      browserOpened := true }

end VismaConnect

namespace VismaConnect

/-- The standard base64 alphabet used by `btoa`. -/
def base64Alphabet : List Char :=
  "ABCDEFGHIJKLMNOPQRSTUVWXYZabcdefghijklmnopqrstuvwxyz0123456789+/".data

/-- Character for a 6-bit group. -/
def base64Char (i : Nat) : Char := base64Alphabet.getD i 'A'

/-- Standard base64 of a byte sequence, grouping three bytes into four
characters and padding with `=`; this is
`btoa(String.fromCharCode(...buffer))` for a byte buffer
(`visma-connect.ts` line 306). -/
def base64EncodeChars : List Nat → List Char
  | [] => []
  | [b1] =>
    [base64Char (b1 / 4), base64Char (b1 % 4 * 16), '=', '=']
  | [b1, b2] =>
    [base64Char (b1 / 4), base64Char (b1 % 4 * 16 + b2 / 16), base64Char (b2 % 16 * 4), '=']
  | b1 :: b2 :: b3 :: rest =>
    base64Char (b1 / 4) :: base64Char (b1 % 4 * 16 + b2 / 16) ::
      base64Char (b2 % 16 * 4 + b3 / 64) :: base64Char (b3 % 64) :: base64EncodeChars rest

def btoaBytes (bytes : List Nat) : String := ⟨base64EncodeChars bytes⟩

/-- Character replacement of `base64ToBase64Url`: `+` becomes `-` and `/`
becomes `_`. -/
def base64UrlChar (c : Char) : Char :=
  if c = '+' then '-' else if c = '/' then '_' else c

/-- Strip the trailing `=` padding (the final replace at line 311). -/
def stripTrailingEq (cs : List Char) : List Char :=
  ((cs.reverse).dropWhile (fun c => c = '=')).reverse

/-- `base64ToBase64Url` (`visma-connect.ts` lines 310-312). -/
def base64ToBase64Url (s : String) : String :=
  ⟨stripTrailingEq (s.data.map base64UrlChar)⟩

/-- `base64UrlEncode` (`visma-connect.ts` lines 305-308). -/
def base64UrlEncode (bytes : List Nat) : String :=
  base64ToBase64Url (btoaBytes bytes)

/-- `generatePKCE` (`visma-connect.ts` lines 35-51), parametric in the 32
random bytes drawn from `Crypto.getRandomBytesAsync` (the platform CSPRNG)
and in the SHA-256 digest function of `Crypto.digestStringAsync` (returned
base64-encoded by the platform, hence `btoaBytes ∘ sha256`). -/
def generatePKCE (sha256 : String → List Nat) (randomBytes : List Nat) : PKCEParams :=
  let codeVerifier := base64UrlEncode randomBytes
  let digestBase64 := btoaBytes (sha256 codeVerifier)
  let codeChallenge := base64ToBase64Url digestBase64
  { codeVerifier := codeVerifier
    codeChallenge := codeChallenge
    codeChallengeMethod := "S256" }

/-- RFC 7636 verifier/challenge character set as produced by base64url:
`[A-Za-z0-9-_]`. -/
def isBase64UrlChar (c : Char) : Bool :=
  c.isAlpha || c.isDigit || c = '-' || c = '_'

end VismaConnect

namespace VismaConnect

/-- Result a caller of `refreshTokens` / `getValidAccessToken` eventually
observes from the shared refresh promise. -/
inductive RefreshOutcome where
  | success (ts : TokenSet)
  | failure (e : AuthFailure)
deriving DecidableEq, Repr

/-- Where one concurrent caller stands in the refresh coordination of
`token-manager.ts`: it has not yet executed the synchronous head of
`refreshTokens` (`idle`), it is awaiting promise `p` (`awaiting`), or it
has resumed with the settled result of promise `p` (`done`). -/
inductive CallerPhase where
  | idle
  | awaiting (p : Nat)
  | done (p : Nat) (r : RefreshOutcome)
deriving DecidableEq, Repr

/-- Global state of the refresh coordination: the module-level
`refreshPromise` variable (`token-manager.ts` line 36) holding the id of
the in-flight promise, a fresh-id counter, the number of refresh requests
currently outstanding at the provider, the settled results of past
promises, and the phase of every caller. -/
structure SFState where
  refreshPromise : Option Nat
  nextId : Nat
  outstanding : Nat
  resolved : Nat → Option RefreshOutcome
  callers : Nat → CallerPhase

/-- Initial state: no refresh in flight, every caller idle. -/
def SFState.start : SFState :=
  { refreshPromise := none
    nextId := 0
    outstanding := 0
    resolved := fun _ => none
    callers := fun _ => .idle }

/-- Interleaving semantics of the refresh coordination.  JavaScript runs
each synchronous segment between `await` points atomically, so the head of
`refreshTokens` (lines 126-132: check `refreshPromise`, and if it is null
start the async body — which issues the provider request — and assign the
promise to `refreshPromise` before any other task runs) is one step:
`enterJoin` when a refresh is in flight, `enterStart` when none is.
Callers reaching this head through `getValidAccessToken` (line 172) and
through direct `refreshTokens` calls execute the same segment.  `resolve`
is the settlement of the in-flight promise (body completes or throws; the
`finally` at line 151 nulls `refreshPromise`), after which the provider
request is no longer outstanding; `wake` resumes one awaiting caller with
the settled, immutable result of its promise. -/
inductive SFStep : SFState → SFState → Prop where
  | enterJoin (s : SFState) (i p : Nat) :
      s.callers i = .idle →
      s.refreshPromise = some p →
      SFStep s { s with callers := fun j => if j = i then .awaiting p else s.callers j }
  | enterStart (s : SFState) (i : Nat) :
      s.callers i = .idle →
      s.refreshPromise = none →
      SFStep s { s with
        refreshPromise := some s.nextId
        nextId := s.nextId + 1
        outstanding := s.outstanding + 1
        callers := fun j => if j = i then .awaiting s.nextId else s.callers j }
  | resolve (s : SFState) (p : Nat) (r : RefreshOutcome) :
      s.refreshPromise = some p →
      SFStep s { s with
        refreshPromise := none
        outstanding := s.outstanding - 1
        resolved := fun q => if q = p then some r else s.resolved q }
  | wake (s : SFState) (i p : Nat) (r : RefreshOutcome) :
      s.callers i = .awaiting p →
      s.resolved p = some r →
      SFStep s { s with callers := fun j => if j = i then .done p r else s.callers j }

/-- States reachable from the initial state. -/
inductive SFReachable : SFState → Prop where
  | start : SFReachable SFState.start
  | step {s t : SFState} : SFReachable s → SFStep s t → SFReachable t

/-- Inductive invariant of the refresh coordination. -/
def SFInv (s : SFState) : Prop :=
  (s.outstanding = if s.refreshPromise.isSome then 1 else 0) ∧
  (∀ p, s.refreshPromise = some p → p < s.nextId ∧ s.resolved p = none) ∧
  (∀ q, s.nextId ≤ q → s.resolved q = none) ∧
  (∀ i p r, s.callers i = .done p r → s.resolved p = some r)

theorem sfInv_start : SFInv SFState.start := by
  refine ⟨rfl, ?_, ?_, ?_⟩
  · intro p hp; cases hp
  · intro q _; rfl
  · intro i p r h; cases h

theorem sfInv_step {s t : SFState} (hinv : SFInv s) (hstep : SFStep s t) : SFInv t := by
  obtain ⟨h1, h2, h3, h4⟩ := hinv
  cases hstep with
  | enterJoin i p hc hp =>
    refine ⟨h1, h2, h3, ?_⟩
    intro j q r hj
    simp only at hj ⊢
    by_cases hji : j = i
    · simp [hji] at hj
    · simp [hji] at hj
      exact h4 j q r hj
  | enterStart i hc hp =>
    refine ⟨?_, ?_, ?_, ?_⟩
    · simp only
      rw [hp] at h1
      simp at h1
      simp [h1]
    · intro p hpe
      simp only at hpe ⊢
      obtain rfl : s.nextId = p := by simpa using hpe
      exact ⟨Nat.lt_succ_self _, h3 _ le_rfl⟩
    · intro q hq
      simp only at hq ⊢
      exact h3 q (Nat.le_of_succ_le hq)
    · intro j q r hj
      simp only at hj ⊢
      by_cases hji : j = i
      · simp [hji] at hj
      · simp [hji] at hj
        exact h4 j q r hj
  | resolve p r hp =>
    have hlt := (h2 p hp).1
    refine ⟨?_, ?_, ?_, ?_⟩
    · simp only
      rw [hp] at h1
      simp at h1
      simp [h1]
    · intro q hq
      simp only at hq
      cases hq
    · intro q hq
      simp only at hq ⊢
      have hqp : q ≠ p := by omega
      simp [hqp]
      exact h3 q hq
    · intro j q r2 hj
      simp only at hj ⊢
      have hres := h4 j q r2 hj
      have hqp : q ≠ p := by
        intro h
        rw [h, (h2 p hp).2] at hres
        cases hres
      simp [hqp]
      exact hres
  | wake i p r hc hres =>
    refine ⟨h1, h2, h3, ?_⟩
    intro j q r2 hj
    simp only at hj ⊢
    by_cases hji : j = i
    · simp [hji] at hj
      obtain ⟨rfl, rfl⟩ := hj
      exact hres
    · simp [hji] at hj
      exact h4 j q r2 hj

theorem sfInv_reachable {s : SFState} (h : SFReachable s) : SFInv s := by
  induction h with
  | start => exact sfInv_start
  | step _ hstep ih => exact sfInv_step ih hstep

end VismaConnect

namespace VismaConnect

/-- C2: `handleCallback` validates the callback parameters in order —
a (truthy) `error` parameter fails with the error code and description
sent by the provider (the spec error `ProviderError`); otherwise an
absent `code` fails with `missing_code` (the spec error
`MalformedCallbackError`); otherwise a
`state` that is not strictly equal to the expected state — any string
differing from it, by however little — fails with `state_mismatch` (the
spec error `StateMismatchError`); only when all checks pass is the code
exchanged for tokens. -/
theorem C2_handleCallback_validation_order
    (params : CallbackParams) (expectedState codeVerifier redirectUri : String) :
    (∀ e, params.error = some e → e ≠ "" →
      handleCallback params expectedState codeVerifier redirectUri =
        .failure ⟨e, jsFalsyToNone params.error_description⟩) ∧
    (jsTruthy params.error = false → params.code = none →
      handleCallback params expectedState codeVerifier redirectUri =
        .failure ⟨"missing_code", some "Authorization code not found in callback"⟩) ∧
    (∀ c, jsTruthy params.error = false → params.code = some c → c ≠ "" →
      params.state ≠ some expectedState →
      handleCallback params expectedState codeVerifier redirectUri =
        .failure ⟨"state_mismatch", some "State parameter does not match"⟩) ∧
    (∀ c, jsTruthy params.error = false → params.code = some c → c ≠ "" →
      params.state = some expectedState →
      handleCallback params expectedState codeVerifier redirectUri =
        .exchange c codeVerifier redirectUri) := by
  refine ⟨?_, ?_, ?_, ?_⟩
  · intro e he hne
    simp [handleCallback, jsTruthy, he, hne]
  · intro herr hcode
    rcases he : params.error with _ | e
    · simp [handleCallback, jsTruthy, he, hcode]
    · rw [he] at herr
      simp [jsTruthy] at herr
      simp [handleCallback, jsTruthy, he, herr, hcode]
  · intro c herr hcode hcne hstate
    rcases he : params.error with _ | e
    · simp [handleCallback, jsTruthy, he, hcode, hcne, hstate]
    · rw [he] at herr
      simp [jsTruthy] at herr
      simp [handleCallback, jsTruthy, he, herr, hcode, hcne, hstate]
  · intro c herr hcode hcne hstate
    rcases he : params.error with _ | e
    · simp [handleCallback, jsTruthy, he, hcode, hcne, hstate]
    · rw [he] at herr
      simp [jsTruthy] at herr
      simp [handleCallback, jsTruthy, he, herr, hcode, hcne, hstate]

/-- Witness for C2: each branch exercised on a concrete callback; the
state-mismatch branch uses a state differing by a single character. -/
theorem C2_handleCallback_validation_order_witness :
    handleCallback ⟨some "abc", some "S", some "access_denied", some "user denied"⟩ "S" "v" "r" =
      .failure ⟨"access_denied", some "user denied"⟩ ∧
    handleCallback ⟨none, some "S", none, none⟩ "S" "v" "r" =
      .failure ⟨"missing_code", some "Authorization code not found in callback"⟩ ∧
    handleCallback ⟨some "abc", some "Sx", none, none⟩ "S" "v" "r" =
      .failure ⟨"state_mismatch", some "State parameter does not match"⟩ ∧
    handleCallback ⟨some "abc", some "S", none, none⟩ "S" "v" "r" =
      .exchange "abc" "v" "r" :=
  ⟨(C2_handleCallback_validation_order
      ⟨some "abc", some "S", some "access_denied", some "user denied"⟩ "S" "v" "r").1
      "access_denied" rfl (by decide),
   (C2_handleCallback_validation_order ⟨none, some "S", none, none⟩ "S" "v" "r").2.1
      (by decide) rfl,
   (C2_handleCallback_validation_order ⟨some "abc", some "Sx", none, none⟩ "S" "v" "r").2.2.1
      "abc" (by decide) rfl (by decide) (by decide),
   (C2_handleCallback_validation_order ⟨some "abc", some "S", none, none⟩ "S" "v" "r").2.2.2
      "abc" (by decide) rfl (by decide) rfl⟩

/-- C4: for both token-endpoint operations, an HTTP-ok body without
`access_token` yields the `invalid_response` error (the spec error
`InvalidResponseError`); with an access token present the returned token
set has `expiresIn` equal to the numeric `expires_in` and 3600 when the
field is missing or non-numeric, and `expiresAt = now + expiresIn * 1000`
with `now` the receipt time. -/
theorem C4_expires_in_defaulting (now : Int) (rt : String) (data : TokenResponseBody) :
    (data.access_token = none →
      exchangeCodeForTokensOk now data =
        .error ⟨"invalid_response", some "Token response missing access_token"⟩ ∧
      refreshAccessTokenOk now rt data =
        .error ⟨"invalid_response", some "Token response missing access_token"⟩) ∧
    (∀ a, data.access_token = some a → a ≠ "" →
      ∃ ts1 ts2,
        exchangeCodeForTokensOk now data = .ok ts1 ∧
        refreshAccessTokenOk now rt data = .ok ts2 ∧
        (∀ n, data.expires_in = .num n → ts1.expiresIn = n ∧ ts2.expiresIn = n) ∧
        (data.expires_in = .absent ∨ data.expires_in = .nonNum →
          ts1.expiresIn = 3600 ∧ ts2.expiresIn = 3600) ∧
        ts1.expiresAt = now + ts1.expiresIn * 1000 ∧
        ts2.expiresAt = now + ts2.expiresIn * 1000) := by
  constructor
  · intro h
    constructor <;> simp [exchangeCodeForTokensOk, refreshAccessTokenOk, h]
  · intro a ha h0
    refine ⟨⟨a, data.refresh_token.getD "", data.token_type.getD "Bearer",
        defaultedExpiresIn data.expires_in,
        now + defaultedExpiresIn data.expires_in * 1000, data.id_token, data.scope⟩,
      ⟨a, jsOrElse data.refresh_token rt, data.token_type.getD "Bearer",
        defaultedExpiresIn data.expires_in,
        now + defaultedExpiresIn data.expires_in * 1000, data.id_token, data.scope⟩,
      ?_, ?_, ?_, ?_, rfl, rfl⟩
    · simp [exchangeCodeForTokensOk, ha, h0]
    · simp [refreshAccessTokenOk, ha, h0]
    · intro n hn
      simp [defaultedExpiresIn, hn]
    · intro hn
      rcases hn with hn | hn <;> simp [defaultedExpiresIn, hn]

/-- Witness for C4: a response with `access_token` present and
`expires_in = 120` is accepted by both operations with
`expiresIn = 120` and `expiresAt = 1000 + 120 * 1000`. -/
theorem C4_expires_in_defaulting_witness :
    ∃ ts1 ts2,
      exchangeCodeForTokensOk 1000 ⟨some "AT", none, none, .num 120, none, none⟩ = .ok ts1 ∧
      refreshAccessTokenOk 1000 "OLD" ⟨some "AT", none, none, .num 120, none, none⟩ = .ok ts2 ∧
      (∀ n, (⟨some "AT", none, none, .num 120, none, none⟩ : TokenResponseBody).expires_in =
          .num n → ts1.expiresIn = n ∧ ts2.expiresIn = n) ∧
      ((⟨some "AT", none, none, .num 120, none, none⟩ : TokenResponseBody).expires_in = .absent ∨
        (⟨some "AT", none, none, .num 120, none, none⟩ : TokenResponseBody).expires_in = .nonNum →
        ts1.expiresIn = 3600 ∧ ts2.expiresIn = 3600) ∧
      ts1.expiresAt = 1000 + ts1.expiresIn * 1000 ∧
      ts2.expiresAt = 1000 + ts2.expiresIn * 1000 :=
  (C4_expires_in_defaulting 1000 "OLD" ⟨some "AT", none, none, .num 120, none, none⟩).2
    "AT" rfl (by decide)

/-- C5: when a successful refresh response omits `refresh_token`, the
returned token set keeps the refresh token that was passed in. -/
theorem C5_refresh_token_preserved (now : Int) (rt : String) (data : TokenResponseBody)
    (a : String) (hn : data.refresh_token = none) (ha : data.access_token = some a)
    (h0 : a ≠ "") :
    ∃ ts, refreshAccessTokenOk now rt data = .ok ts ∧ ts.refreshToken = rt := by
  refine ⟨⟨a, jsOrElse data.refresh_token rt, data.token_type.getD "Bearer",
      defaultedExpiresIn data.expires_in,
      now + defaultedExpiresIn data.expires_in * 1000, data.id_token, data.scope⟩, ?_, ?_⟩
  · simp [refreshAccessTokenOk, ha, h0]
  · simp [jsOrElse, hn]

/-- Witness for C5: refreshing with token `"OLD"` against a response with
no `refresh_token` keeps `"OLD"`. -/
theorem C5_refresh_token_preserved_witness :
    ∃ ts, refreshAccessTokenOk 0 "OLD" ⟨some "AT", none, none, .num 60, none, none⟩ = .ok ts ∧
      ts.refreshToken = "OLD" :=
  C5_refresh_token_preserved 0 "OLD" ⟨some "AT", none, none, .num 60, none, none⟩
    "AT" rfl rfl (by decide)

end VismaConnect

namespace VismaConnect

/-- C9: when a token refresh fails — no usable refresh token, an HTTP
error, or a malformed success body — `refreshTokens` leaves storage
untouched and invokes the registered refresh-failure callback, and a
`getValidAccessToken` call whose expiry check triggered that refresh
returns `none` rather than propagating the error. -/
theorem C9_refresh_failure_effects (now buffer : Int) (s : SecureStore) (reply : ProviderReply)
    (t : StoredTokens) (e : Int) (f : AuthFailure)
    (ht : getTokens s = some t) (he : t.expiresAt = some e) (he0 : e ≠ 0)
    (hexp : isTokenExpired now e buffer = true)
    (hfail : (refreshTokensRun now s reply).result = .error f) :
    (refreshTokensRun now s reply).store = s ∧
    (refreshTokensRun now s reply).failureCallbackInvoked = true ∧
    (getValidAccessTokenRun now buffer s reply).result = none ∧
    (getValidAccessTokenRun now buffer s reply).store = s ∧
    (getValidAccessTokenRun now buffer s reply).failureCallbackInvoked = true := by
  have hrun : (refreshTokensRun now s reply).store = s ∧
      (refreshTokensRun now s reply).failureCallbackInvoked = true := by
    rcases hs : s.refresh_token with _ | rt
    · simp [refreshTokensRun, hs]
    · by_cases h0 : rt = ""
      · simp [refreshTokensRun, hs, h0]
      · rcases reply with body | err
        · rcases hx : refreshAccessTokenOk now rt body with err2 | ts
          · simp [refreshTokensRun, hs, h0, hx]
          · simp [refreshTokensRun, hs, h0, hx] at hfail
        · simp [refreshTokensRun, hs, h0]
  have hget : getValidAccessTokenRun now buffer s reply =
      ⟨(refreshTokensRun now s reply).store, (refreshTokensRun now s reply).providerCalled,
        (refreshTokensRun now s reply).failureCallbackInvoked, none⟩ := by
    simp only [getValidAccessTokenRun, ht, he]
    simp [he0, hexp, hfail]
  exact ⟨hrun.1, hrun.2, by rw [hget], by rw [hget]; exact hrun.1, by rw [hget]; exact hrun.2⟩

/-- Witness for C9: stored token `"at"` with expiry 1000 long past, no
stored refresh token; the refresh fails, leaves storage unchanged, fires
the failure callback, and `getValidAccessToken` yields `none`. -/
theorem C9_refresh_failure_effects_witness :
    (refreshTokensRun 2000000 ⟨some "at", none, some "1000", none, none⟩
        (.httpError ⟨"refresh_error", none⟩)).store =
      ⟨some "at", none, some "1000", none, none⟩ ∧
    (refreshTokensRun 2000000 ⟨some "at", none, some "1000", none, none⟩
        (.httpError ⟨"refresh_error", none⟩)).failureCallbackInvoked = true ∧
    (getValidAccessTokenRun 2000000 60 ⟨some "at", none, some "1000", none, none⟩
        (.httpError ⟨"refresh_error", none⟩)).result = none ∧
    (getValidAccessTokenRun 2000000 60 ⟨some "at", none, some "1000", none, none⟩
        (.httpError ⟨"refresh_error", none⟩)).store =
      ⟨some "at", none, some "1000", none, none⟩ ∧
    (getValidAccessTokenRun 2000000 60 ⟨some "at", none, some "1000", none, none⟩
        (.httpError ⟨"refresh_error", none⟩)).failureCallbackInvoked = true :=
  C9_refresh_failure_effects 2000000 60 ⟨some "at", none, some "1000", none, none⟩
    (.httpError ⟨"refresh_error", none⟩) ⟨"at", none, some 1000, none⟩ 1000
    (.tokenRefreshError "No refresh token available")
    rfl rfl (by decide) (by decide) rfl

/-- C10: when an access token is stored but the persisted expiry is absent
or does not parse as an integer, `getValidAccessToken` returns the stored
token as-is — no expiry comparison, no refresh, no storage change —
whatever the current time is. -/
theorem C10_missing_expiry_skips_refresh (now buffer : Int) (s : SecureStore)
    (reply : ProviderReply) (a : String) (ha : s.auth_token = some a) (h0 : a ≠ "")
    (hexp : ∀ es, s.token_expiry = some es → parseIntJS es = none) :
    getValidAccessTokenRun now buffer s reply = ⟨s, false, false, some a⟩ := by
  have hgt : getTokens s = some ⟨a, jsFalsyToNone s.refresh_token, none,
      jsFalsyToNone s.id_token⟩ := by
    rcases hs : s.token_expiry with _ | es
    · simp [getTokens, ha, h0, hs]
    · by_cases hse : es = ""
      · simp [getTokens, ha, h0, hs, hse]
      · simp [getTokens, ha, h0, hs, hse, hexp es hs]
  simp [getValidAccessTokenRun, hgt]

/-- Witness for C10: expiry slot holds `"not-a-number"`; the stored token
is returned even at a very late `now`, without a provider call. -/
theorem C10_missing_expiry_skips_refresh_witness :
    getValidAccessTokenRun 99999999999 60
        ⟨some "tok", some "rt", some "not-a-number", none, none⟩
        (.httpError ⟨"refresh_error", none⟩) =
      ⟨⟨some "tok", some "rt", some "not-a-number", none, none⟩, false, false, some "tok"⟩ :=
  C10_missing_expiry_skips_refresh 99999999999 60
    ⟨some "tok", some "rt", some "not-a-number", none, none⟩
    (.httpError ⟨"refresh_error", none⟩) "tok" rfl (by decide)
    (by intro es h; cases h; decide)

/-- C3: a persisted pending auth state older than the 5-minute TTL
(`now - timestamp > 300000` ms) makes the callback handling of the hook fail
with the retry-instructing error and delete the pending state, whatever
the callback parameters and provider reply are — in particular no code
exchange is attempted.  The source realises the spec error
`ExpiredAuthAttemptError` as a `VismaConnectError` with code
`invalid_state` raised after `loadPendingAuthState` discards the expired
record. -/
theorem C3_expired_pending_state (now : Int) (s : SecureStore) (params : CallbackParams)
    (reply : ProviderReply) (p : PendingAuthState)
    (hp : s.auth_state = some p) (hexp : now - p.timestamp > 300000) :
    hookHandleCallbackRun now s params reply =
      ⟨{ s with auth_state := none },
        some "No pending authentication found. Please try logging in again.", false, false⟩ := by
  have hload : loadPendingAuthState now s = ({ s with auth_state := none }, none) := by
    have h5 : AUTH_STATE_MAX_AGE = 300000 := by decide
    simp [loadPendingAuthState, hp, h5, hexp]
  simp [hookHandleCallbackRun, hload]

/-- Witness for C3: the pending state was created at time 0 and the
callback arrives at `now = 300001` carrying a code and the matching state
value, yet the flow fails with the retry message, deletes the pending
state, and performs no exchange. -/
theorem C3_expired_pending_state_witness :
    hookHandleCallbackRun 300001 ⟨none, none, none, none, some ⟨"S", ⟨"v", "c", "S256"⟩, "r", 0⟩⟩
        ⟨some "abc", some "S", none, none⟩
        (.ok ⟨some "AT", some "RT", some "Bearer", .num 3600, none, none⟩) =
      ⟨⟨none, none, none, none, none⟩,
        some "No pending authentication found. Please try logging in again.", false, false⟩ :=
  C3_expired_pending_state 300001 ⟨none, none, none, none, some ⟨"S", ⟨"v", "c", "S256"⟩, "r", 0⟩⟩
    ⟨some "abc", some "S", none, none⟩
    (.ok ⟨some "AT", some "RT", some "Bearer", .num 3600, none, none⟩)
    ⟨"S", ⟨"v", "c", "S256"⟩, "r", 0⟩ rfl (by decide)

/-- C6 (code bug): the placeholder client id of the configuration module is
`"your-client-id-here"` (`auth.config.ts` line 79), and its own
`validateAuthConfig` flags exactly that value as unconfigured; but the
`login` guard (hook line 262) compares against the different string
`YOUR_VISMA_CLIENT_ID`, so with the actual placeholder of the module `login`
does NOT fail fast: it generates PKCE parameters, persists pending auth
state, and opens the external browser. -/
theorem C6_placeholder_client_id_not_rejected :
    (validateAuthConfig ⟨authConfigDefaultClientId, "template-mobile-app", DEFAULT_SCOPES⟩).1 =
      false ∧
    (validateAuthConfig ⟨authConfigDefaultClientId, "template-mobile-app", DEFAULT_SCOPES⟩).2 =
      ["VISMA_CONNECT_CLIENT_ID is not configured"] ∧
    loginRun authConfigDefaultClientId 0 ⟨none, none, none, none, none⟩
        ⟨"v", "c", "S256"⟩ "S" "r" =
      ⟨⟨none, none, none, none, some ⟨"S", ⟨"v", "c", "S256"⟩, "r", 0⟩⟩,
        none, true, true, true⟩ ∧
    loginRun "" 0 ⟨none, none, none, none, none⟩ ⟨"v", "c", "S256"⟩ "S" "r" =
      ⟨⟨none, none, none, none, none⟩,
        some "Visma Connect client ID not configured. See docs/VISMA_CONNECT.md",
        false, false, false⟩ := by
  refine ⟨by decide, by decide, ?_, ?_⟩ <;> rfl

/-- C7 counterexample: `logout` does not clear the persisted pending auth
state — after a logout (here with the backend call failing) the
`auth_state` slot still holds the pending record, refuting the claim that
logout clears all persisted tokens AND pending auth state. -/
theorem C7_pending_state_survives_logout :
    (logoutRun
        ⟨some "at", some "rt", some "123", some "idt", some ⟨"S", ⟨"v", "c", "S256"⟩, "r", 0⟩⟩
        ⟨some "user-1", true, false, none, some 123⟩ true).store.auth_state =
      some ⟨"S", ⟨"v", "c", "S256"⟩, "r", 0⟩ := rfl

/-- C7 as amended: `logout` unconditionally clears every persisted token
slot (access token, refresh token, expiry, id token) and resets the local
session, and the backend logout failure is swallowed (no error surfaced);
the pending auth state, however, is left untouched. -/
theorem C7_logout_clears_tokens_despite_backend_failure (s : SecureStore)
    (st : AuthStoreState) (backendFails : Bool) :
    (logoutRun s st backendFails).store.auth_token = none ∧
    (logoutRun s st backendFails).store.refresh_token = none ∧
    (logoutRun s st backendFails).store.token_expiry = none ∧
    (logoutRun s st backendFails).store.id_token = none ∧
    (logoutRun s st backendFails).storeState.user = none ∧
    (logoutRun s st backendFails).storeState.isAuthenticated = false ∧
    (logoutRun s st backendFails).errorMsg = none ∧
    (logoutRun s st backendFails).store.auth_state = s.auth_state := by
  refine ⟨rfl, rfl, rfl, rfl, rfl, rfl, rfl, rfl⟩

end VismaConnect

namespace VismaConnect

theorem base64Char_url_ok :
    ∀ i, i < 64 → isBase64UrlChar (base64UrlChar (base64Char i)) = true := by decide

theorem isBase64UrlChar_ne_eq {c : Char} (h : isBase64UrlChar c = true) : c ≠ '=' := by
  intro hc
  rw [hc] at h
  exact absurd h (by decide)

theorem base64EncodeChars_mod2 :
    ∀ l : List Nat, l.length % 3 = 2 → (∀ b ∈ l, b < 256) →
      ∃ idxs : List Nat, (∀ i ∈ idxs, i < 64) ∧
        idxs.length = l.length / 3 * 4 + 3 ∧
        base64EncodeChars l = idxs.map base64Char ++ ['=']
  | [], hlen, _ => by simp at hlen
  | [b1], hlen, _ => by simp at hlen
  | [b1, b2], _, hb => by
    have hb1 : b1 < 256 := hb b1 (by simp)
    have hb2 : b2 < 256 := hb b2 (by simp)
    refine ⟨[b1 / 4, b1 % 4 * 16 + b2 / 16, b2 % 16 * 4], ?_, by simp, by
      simp [base64EncodeChars]⟩
    intro i hi
    simp at hi
    rcases hi with rfl | rfl | rfl <;> omega
  | b1 :: b2 :: b3 :: rest, hlen, hb => by
    have hlen2 : rest.length % 3 = 2 := by
      simp [List.length] at hlen
      omega
    have hbrest : ∀ b ∈ rest, b < 256 := fun b hbm => hb b (by simp [hbm])
    obtain ⟨idxs, hidx, hl, henc⟩ := base64EncodeChars_mod2 rest hlen2 hbrest
    have hb1 : b1 < 256 := hb b1 (by simp)
    have hb2 : b2 < 256 := hb b2 (by simp)
    have hb3 : b3 < 256 := hb b3 (by simp)
    refine ⟨b1 / 4 :: (b1 % 4 * 16 + b2 / 16) :: (b2 % 16 * 4 + b3 / 64) :: b3 % 64 :: idxs,
      ?_, ?_, ?_⟩
    · intro i hi
      simp at hi
      rcases hi with rfl | rfl | rfl | rfl | hi
      · omega
      · omega
      · omega
      · omega
      · exact hidx i hi
    · simp [hl]
      omega
    · simp [base64EncodeChars, henc]

theorem dropWhileEq_of_none {l : List Char} (h : ∀ c ∈ l, ¬ c = '=') :
    l.dropWhile (fun c => c = '=') = l := by
  cases l with
  | nil => rfl
  | cons c t =>
    rw [List.dropWhile_cons]
    simp [h c (by simp)]

theorem stripTrailingEq_append (front : List Char) (h : ∀ c ∈ front, ¬ c = '=') :
    stripTrailingEq (front ++ ['=']) = front := by
  unfold stripTrailingEq
  rw [List.reverse_append]
  simp only [List.reverse_cons, List.reverse_nil, List.nil_append, List.singleton_append]
  rw [List.dropWhile_cons]
  simp only [decide_True, if_true]
  rw [dropWhileEq_of_none (by intro c hc; exact h c (List.mem_reverse.mp hc))]
  exact List.reverse_reverse front

theorem base64UrlEncode_of_32 (bytes : List Nat) (hlen : bytes.length = 32)
    (hb : ∀ b ∈ bytes, b < 256) :
    ∃ idxs : List Nat, (∀ i ∈ idxs, i < 64) ∧ idxs.length = 43 ∧
      (base64UrlEncode bytes).data = idxs.map (fun i => base64UrlChar (base64Char i)) := by
  have hmod : bytes.length % 3 = 2 := by rw [hlen]
  obtain ⟨idxs, hidx, hl, henc⟩ := base64EncodeChars_mod2 bytes hmod hb
  refine ⟨idxs, hidx, by rw [hl, hlen], ?_⟩
  have hdata : (base64UrlEncode bytes).data =
      stripTrailingEq ((base64EncodeChars bytes).map base64UrlChar) := rfl
  rw [hdata, henc, List.map_append]
  have heq : (['='] : List Char).map base64UrlChar = ['='] := rfl
  rw [heq, List.map_map]
  have hfront : ∀ c ∈ idxs.map (base64UrlChar ∘ base64Char), ¬ c = '=' := by
    intro c hc
    obtain ⟨i, hi, rfl⟩ := List.mem_map.mp hc
    exact isBase64UrlChar_ne_eq (base64Char_url_ok i (hidx i hi))
  rw [stripTrailingEq_append _ hfront]
  rfl

/-- C8: every `PKCEParams` produced by `generatePKCE` has
`codeChallengeMethod = "S256"`, a challenge equal to the (padding-stripped)
base64url encoding of the SHA-256 digest of the verifier, and a verifier
that is the base64url encoding of the 32 bytes drawn from the platform
CSPRNG — 43 characters long (within the RFC 7636 range 43-128) over the alphabet
`[A-Za-z0-9-_]`.  The theorem is quantified over every possible draw of 32
bytes and every digest function, as randomness and SHA-256 live in the
external `expo-crypto` module. -/
theorem C8_generatePKCE_rfc7636 (sha256 : String → List Nat) (bytes : List Nat)
    (hlen : bytes.length = 32) (hb : ∀ b ∈ bytes, b < 256) :
    (generatePKCE sha256 bytes).codeChallenge =
      base64UrlEncode (sha256 (generatePKCE sha256 bytes).codeVerifier) ∧
    (generatePKCE sha256 bytes).codeChallengeMethod = "S256" ∧
    (generatePKCE sha256 bytes).codeVerifier = base64UrlEncode bytes ∧
    (generatePKCE sha256 bytes).codeVerifier.length = 43 ∧
    43 ≤ (generatePKCE sha256 bytes).codeVerifier.length ∧
    (generatePKCE sha256 bytes).codeVerifier.length ≤ 128 ∧
    ∀ c ∈ (generatePKCE sha256 bytes).codeVerifier.data, isBase64UrlChar c = true := by
  obtain ⟨idxs, hidx, hl43, hdata⟩ := base64UrlEncode_of_32 bytes hlen hb
  have hstrlen : (generatePKCE sha256 bytes).codeVerifier.length = 43 := by
    show (base64UrlEncode bytes).data.length = 43
    rw [hdata, List.length_map, hl43]
  refine ⟨rfl, rfl, rfl, hstrlen, by omega, by omega, ?_⟩
  intro c hc
  have hc2 : c ∈ (base64UrlEncode bytes).data := hc
  rw [hdata] at hc2
  obtain ⟨i, hi, rfl⟩ := List.mem_map.mp hc2
  exact base64Char_url_ok i (hidx i hi)

/-- Witness for C8: a concrete draw of 32 bytes (0..31) and a dummy digest
function; the produced verifier has length 43 over the base64url alphabet
and the challenge relates to the digest as claimed. -/
theorem C8_generatePKCE_rfc7636_witness :
    (generatePKCE (fun _ => List.range 32) (List.range 32)).codeChallenge =
      base64UrlEncode ((fun _ => List.range 32)
        (generatePKCE (fun _ => List.range 32) (List.range 32)).codeVerifier) ∧
    (generatePKCE (fun _ => List.range 32) (List.range 32)).codeChallengeMethod = "S256" ∧
    (generatePKCE (fun _ => List.range 32) (List.range 32)).codeVerifier =
      base64UrlEncode (List.range 32) ∧
    (generatePKCE (fun _ => List.range 32) (List.range 32)).codeVerifier.length = 43 ∧
    43 ≤ (generatePKCE (fun _ => List.range 32) (List.range 32)).codeVerifier.length ∧
    (generatePKCE (fun _ => List.range 32) (List.range 32)).codeVerifier.length ≤ 128 ∧
    ∀ c ∈ (generatePKCE (fun _ => List.range 32) (List.range 32)).codeVerifier.data,
      isBase64UrlChar c = true :=
  C8_generatePKCE_rfc7636 (fun _ => List.range 32) (List.range 32) (by decide) (by decide)

end VismaConnect

namespace VismaConnect

/-- C1: in every reachable state of the refresh coordination, at most one
refresh request is outstanding at the provider; any two callers that
completed on the same refresh promise observed the same result (the same
token set or the same failure); and while a refresh is in flight, the only
entry step available to a caller reaching the head of `refreshTokens` —
directly or through `getValidAccessToken` — joins that in-flight promise:
it changes the caller to awaiting exactly that promise, starts no provider
request, and creates no new promise. -/
theorem C1_single_flight_refresh (s : SFState) (h : SFReachable s) :
    s.outstanding ≤ 1 ∧
    (∀ i j p r r2, s.callers i = .done p r → s.callers j = .done p r2 → r = r2) ∧
    (∀ t i p, s.refreshPromise = some p → s.callers i = .idle → SFStep s t →
      t.callers i ≠ s.callers i →
      t.callers i = .awaiting p ∧ t.outstanding = s.outstanding ∧ t.nextId = s.nextId) := by
  obtain ⟨h1, _h2, _h3, h4⟩ := sfInv_reachable h
  refine ⟨?_, ?_, ?_⟩
  · rw [h1]
    split <;> omega
  · intro i j p r r2 hi hj
    have := (h4 i p r hi).symm.trans (h4 j p r2 hj)
    simpa using this
  · intro t i p hp hidle hstep hchanged
    cases hstep with
    | enterJoin i2 p2 hc2 hp2 =>
      by_cases hii : i = i2
      · subst hii
        rw [hp] at hp2
        obtain rfl : p = p2 := by simpa using hp2
        simp
      · simp [hii] at hchanged
    | enterStart i2 hc2 hp2 =>
      rw [hp] at hp2
      cases hp2
    | resolve p2 r hp2 =>
      exact absurd rfl hchanged
    | wake i2 p2 r hc2 hres =>
      by_cases hii : i = i2
      · subst hii
        rw [hidle] at hc2
        cases hc2
      · simp [hii] at hchanged
  
/-- Witness for C1: the state reached from the initial state by caller 0
executing the entry of `refreshTokens` with no refresh in flight — one
outstanding provider request, caller 0 awaiting promise 0. -/
theorem C1_single_flight_refresh_witness :
    ({ refreshPromise := some 0, nextId := 1, outstanding := 1, resolved := fun _ => none,
       callers := fun j => if j = 0 then .awaiting 0 else .idle } : SFState).outstanding ≤ 1 ∧
    (∀ i j p r r2,
      ({ refreshPromise := some 0, nextId := 1, outstanding := 1, resolved := fun _ => none,
         callers := fun j => if j = 0 then .awaiting 0 else .idle } : SFState).callers i =
        .done p r →
      ({ refreshPromise := some 0, nextId := 1, outstanding := 1, resolved := fun _ => none,
         callers := fun j => if j = 0 then .awaiting 0 else .idle } : SFState).callers j =
        .done p r2 → r = r2) ∧
    (∀ t i p,
      ({ refreshPromise := some 0, nextId := 1, outstanding := 1, resolved := fun _ => none,
         callers := fun j => if j = 0 then .awaiting 0 else .idle } : SFState).refreshPromise =
        some p →
      ({ refreshPromise := some 0, nextId := 1, outstanding := 1, resolved := fun _ => none,
         callers := fun j => if j = 0 then .awaiting 0 else .idle } : SFState).callers i =
        .idle →
      SFStep { refreshPromise := some 0, nextId := 1, outstanding := 1, resolved := fun _ => none,
               callers := fun j => if j = 0 then .awaiting 0 else .idle } t →
      t.callers i ≠
        ({ refreshPromise := some 0, nextId := 1, outstanding := 1, resolved := fun _ => none,
           callers := fun j => if j = 0 then .awaiting 0 else .idle } : SFState).callers i →
      t.callers i = .awaiting p ∧ t.outstanding = 1 ∧ t.nextId = 1) :=
  C1_single_flight_refresh _
    (SFReachable.step SFReachable.start (SFStep.enterStart SFState.start 0 rfl rfl))

end VismaConnect
